import Mathlib

/-!
Shallow embedding of `src/app.js` (3d-gesture-particle-system).

The embedding covers the two cores of the program: the particle layout
templates (`templates` object, lines 42-150) together with the per-frame
particle update (`updateParticles`, lines 200-227), and the gesture pipeline
(`detectGesture`, lines 276-297, `onHandResults`, lines 300-329, and the
reset-button handler, lines 348-352).

Numbers are modelled as exact rationals or reals.  JavaScript's `%` operator
(floating-point remainder, truncated toward zero) is modelled by `jsMod`.
A JavaScript runtime error (reading a property of `undefined`, or a NaN
produced by `Math.acos` outside [-1,1] or by a division by zero) is modelled
by `Option.none`: definitions that can fault return `Option` values, with a
guard exactly where the JavaScript expression would produce the fault.
-/

/-- Truncation toward zero, the rounding used by JavaScript's `%`. -/
def jsTrunc {α : Type} [LinearOrderedField α] [FloorRing α] (x : α) : α :=
  if 0 ≤ x then (⌊x⌋ : α) else (⌈x⌉ : α)

/-- JavaScript's `%` operator: `a % b = a - b * trunc (a / b)`. -/
def jsMod {α : Type} [LinearOrderedField α] [FloorRing α] (a b : α) : α :=
  a - b * jsTrunc (a / b)

theorem jsTrunc_of_nonneg {α : Type} [LinearOrderedField α] [FloorRing α]
    (x : α) (hx : 0 ≤ x) : jsTrunc x = (⌊x⌋ : α) := by
  simp [jsTrunc, hx]

/-- For nonnegative dividend and positive divisor, `jsMod a b ∈ [0, b)`. -/
theorem jsMod_nonneg_lt {α : Type} [LinearOrderedField α] [FloorRing α]
    (a b : α) (ha : 0 ≤ a) (hb : 0 < b) : 0 ≤ jsMod a b ∧ jsMod a b < b := by
  have hq : 0 ≤ a / b := div_nonneg ha hb.le
  have h1 : jsMod a b = b * (a / b - ⌊a / b⌋) := by
    rw [jsMod, jsTrunc_of_nonneg _ hq]
    field_simp
  have hfr0 : 0 ≤ a / b - ⌊a / b⌋ := sub_nonneg.mpr (Int.floor_le _)
  have hfr1 : a / b - ⌊a / b⌋ < 1 := by
    have := Int.lt_floor_add_one (a / b)
    linarith
  constructor
  · rw [h1]; positivity
  · rw [h1]
    calc b * (a / b - ⌊a / b⌋) < b * 1 := by
          exact (mul_lt_mul_left hb).mpr hfr1
    _ = b := mul_one b

/-! ## Gesture data model

`detectGesture` (src/app.js lines 276-297) returns one of the strings
`open_hand`, `fist`, `point`, `peace`, `unknown`; the initial / reset value of
`gestureState.detected` is `none`. -/

inductive Gesture : Type
  | open_hand
  | fist
  | point
  | peace
  | unknown
  | none
deriving DecidableEq, Repr

/-- One hand landmark as consumed by `detectGesture`: only the `x` and `y`
fields are read. -/
structure Landmark : Type where
  x : ℚ
  y : ℚ
deriving DecidableEq, Repr

/-- `gestureState` (src/app.js lines 28-33).  The source field `rotation` is
named `rotationAccumulator` here. -/
structure GestureState : Type where
  expansion : ℚ
  rotationAccumulator : ℚ
  colorShift : ℚ
  detected : Gesture
deriving DecidableEq, Repr

/-- The initial value of `gestureState` (lines 28-33), also assigned by the
reset-button handler (line 351). -/
def initState : GestureState :=
  { expansion := 1.0, rotationAccumulator := 0, colorShift := 0,
    detected := Gesture.none }

/-- `detectGesture` (src/app.js lines 276-297).  Each `landmarks[k]` access is
a fallible lookup: on a sample shorter than 21 points the JavaScript code
reads `.x`/`.y` of `undefined` and throws, modelled as `Option.none`.  The
loop `for i in 0..3` over tips `8+4i` and PIPs `6+4i` is unrolled. -/
def detectGesture (landmarks : List Landmark) : Option Gesture := do
  let l3 ← landmarks[3]?
  let l4 ← landmarks[4]?
  let l6 ← landmarks[6]?
  let l8 ← landmarks[8]?
  let l10 ← landmarks[10]?
  let l12 ← landmarks[12]?
  let l14 ← landmarks[14]?
  let l16 ← landmarks[16]?
  let l18 ← landmarks[18]?
  let l20 ← landmarks[20]?
  let fingers : List Bool :=
    [decide (l4.x < l3.x), decide (l8.y < l6.y), decide (l12.y < l10.y),
     decide (l16.y < l14.y), decide (l20.y < l18.y)]
  let extendedCount := fingers.count true
  if extendedCount = 5 then pure Gesture.open_hand
  else if extendedCount = 0 then pure Gesture.fist
  else if extendedCount = 1 ∧ fingers.getD 1 false then pure Gesture.point
  else if extendedCount = 2 ∧ fingers.getD 1 false ∧ fingers.getD 2 false then
    pure Gesture.peace
  else pure Gesture.unknown

/-- The `switch (gesture)` body of `onHandResults` (src/app.js lines 304-325):
sets `detected` to the classified label, then applies the per-label numeric
mutation. -/
def applyGesture (s : GestureState) (g : Gesture) : GestureState :=
  let s := { s with detected := g }
  match g with
  | Gesture.open_hand => { s with expansion := min (s.expansion + 0.02) 2.0 }
  | Gesture.fist => { s with expansion := max (s.expansion - 0.02) 0.3 }
  | Gesture.point =>
      { s with rotationAccumulator := s.rotationAccumulator + 1 }
  | Gesture.peace => { s with colorShift := jsMod (s.colorShift + 0.01) 1 }
  | _ => s

/-- `onHandResults` (src/app.js lines 300-329).  The input is `Option.some`
of the first hand's landmark list when `results.multiHandLandmarks` is
non-empty, `Option.none` otherwise.  In the no-hand branch the source only
writes the status text: `gestureState` is untouched.  A classification fault
propagates. -/
def onHandResults (results : Option (List Landmark)) (s : GestureState) :
    Option GestureState :=
  match results with
  | Option.some lm => (detectGesture lm).map (fun g => applyGesture s g)
  | Option.none => Option.some s

/-- One reducer invocation as seen by the Visual State: either a gesture
label reaching the `switch` of `onHandResults`, or a click of the reset
button (src/app.js lines 348-352), which reassigns `gestureState` to its
initial value. -/
inductive Event : Type
  | label (g : Gesture)
  | reset
deriving DecidableEq, Repr

/-- One step of the Visual State under an `Event`. -/
def step (s : GestureState) (e : Event) : GestureState :=
  match e with
  | Event.label g => applyGesture s g
  | Event.reset => initState

/-- The invariant claimed for the Visual State: `expansion ∈ [0.3, 2.0]` and
`colorShift ∈ [0, 1)`. -/
def stateInv (s : GestureState) : Prop :=
  0.3 ≤ s.expansion ∧ s.expansion ≤ 2.0 ∧ 0 ≤ s.colorShift ∧ s.colorShift < 1

theorem stateInv_initState : stateInv initState := by
  refine ⟨?_, ?_, ?_, ?_⟩ <;> norm_num [initState, stateInv]

theorem stateInv_applyGesture (s : GestureState) (g : Gesture)
    (h : stateInv s) : stateInv (applyGesture s g) := by
  obtain ⟨h1, h2, h3, h4⟩ := h
  cases g with
  | open_hand =>
      refine ⟨?_, ?_, h3, h4⟩
      · simp only [applyGesture, le_min_iff]
        constructor <;> linarith
      · simp only [applyGesture]
        exact min_le_right _ _
  | fist =>
      refine ⟨?_, ?_, h3, h4⟩
      · simp only [applyGesture]
        exact le_max_right _ _
      · simp only [applyGesture, max_le_iff]
        constructor <;> linarith
  | point => exact ⟨h1, h2, h3, h4⟩
  | peace =>
      have hm := jsMod_nonneg_lt (s.colorShift + 0.01) 1 (by linarith)
        (by norm_num)
      exact ⟨h1, h2, hm.1, hm.2⟩
  | unknown => exact ⟨h1, h2, h3, h4⟩
  | none => exact ⟨h1, h2, h3, h4⟩

theorem stateInv_step (s : GestureState) (e : Event) (h : stateInv s) :
    stateInv (step s e) := by
  cases e with
  | label g => exact stateInv_applyGesture s g h
  | reset => exact stateInv_initState

theorem stateInv_foldl (evs : List Event) (s : GestureState)
    (h : stateInv s) : stateInv (evs.foldl step s) := by
  induction evs generalizing s with
  | nil => exact h
  | cons e evs ih => exact ih (step s e) (stateInv_step s e h)

/-- C1: for every sequence of reducer invocations (gesture labels and
resets) starting from the initial Visual State, `expansion` stays within
[0.3, 2.0] and the color-shift accumulator stays within [0, 1). -/
theorem C1_state_bounds (evs : List Event) :
    0.3 ≤ (evs.foldl step initState).expansion ∧
      (evs.foldl step initState).expansion ≤ 2.0 ∧
      0 ≤ (evs.foldl step initState).colorShift ∧
      (evs.foldl step initState).colorShift < 1 :=
  stateInv_foldl evs initState stateInv_initState

/-! ## Claims about the gesture classifier and reducer -/

/-- The classification rule as the claim states it, on the 5-element
extended vector `(thumb, index, middle, ring, pinky)`: all five extended is
`open_hand`, none is `fist`, exactly one and it is the index is `point`,
exactly two and they are index and middle is `peace`, anything else is
`unknown`. -/
def claimClassify (thumb index middle ring pinky : Bool) : Gesture :=
  let extended := [thumb, index, middle, ring, pinky]
  let n := extended.count true
  if n = 5 then Gesture.open_hand
  else if n = 0 then Gesture.fist
  else if n = 1 ∧ index = true then Gesture.point
  else if n = 2 ∧ index = true ∧ middle = true then Gesture.peace
  else Gesture.unknown

/-- C2: on a sample with at least 21 points, `detectGesture` computes the
5-element extended vector (thumb iff `landmarks[4].x < landmarks[3].x`,
finger `i` iff `landmarks[8+4i].y < landmarks[6+4i].y`) and classifies it by
the stated priority order; in particular a thumb-and-pinky-only sample
yields `unknown`. -/
theorem C2_classifier (lm : List Landmark) (h : 21 ≤ lm.length) :
    detectGesture lm = Option.some (claimClassify
      (decide ((lm.getD 4 ⟨0, 0⟩).x < (lm.getD 3 ⟨0, 0⟩).x))
      (decide ((lm.getD 8 ⟨0, 0⟩).y < (lm.getD 6 ⟨0, 0⟩).y))
      (decide ((lm.getD 12 ⟨0, 0⟩).y < (lm.getD 10 ⟨0, 0⟩).y))
      (decide ((lm.getD 16 ⟨0, 0⟩).y < (lm.getD 14 ⟨0, 0⟩).y))
      (decide ((lm.getD 20 ⟨0, 0⟩).y < (lm.getD 18 ⟨0, 0⟩).y))) ∧
    (((lm.getD 4 ⟨0, 0⟩).x < (lm.getD 3 ⟨0, 0⟩).x) →
      ¬((lm.getD 8 ⟨0, 0⟩).y < (lm.getD 6 ⟨0, 0⟩).y) →
      ¬((lm.getD 12 ⟨0, 0⟩).y < (lm.getD 10 ⟨0, 0⟩).y) →
      ¬((lm.getD 16 ⟨0, 0⟩).y < (lm.getD 14 ⟨0, 0⟩).y) →
      ((lm.getD 20 ⟨0, 0⟩).y < (lm.getD 18 ⟨0, 0⟩).y) →
      detectGesture lm = Option.some Gesture.unknown) := by
  have g : ∀ k : ℕ, k < 21 → lm[k]? = some (lm.getD k ⟨0, 0⟩) := by
    intro k hk
    rw [List.getD_eq_getElem?_getD, List.getElem?_eq_getElem (by omega)]
    rfl
  have main : detectGesture lm = Option.some (claimClassify
      (decide ((lm.getD 4 ⟨0, 0⟩).x < (lm.getD 3 ⟨0, 0⟩).x))
      (decide ((lm.getD 8 ⟨0, 0⟩).y < (lm.getD 6 ⟨0, 0⟩).y))
      (decide ((lm.getD 12 ⟨0, 0⟩).y < (lm.getD 10 ⟨0, 0⟩).y))
      (decide ((lm.getD 16 ⟨0, 0⟩).y < (lm.getD 14 ⟨0, 0⟩).y))
      (decide ((lm.getD 20 ⟨0, 0⟩).y < (lm.getD 18 ⟨0, 0⟩).y))) := by
    simp only [detectGesture, g 3 (by norm_num), g 4 (by norm_num),
      g 6 (by norm_num), g 8 (by norm_num), g 10 (by norm_num),
      g 12 (by norm_num), g 14 (by norm_num), g 16 (by norm_num),
      g 18 (by norm_num), g 20 (by norm_num), Option.bind_some, bind,
      Option.bind, claimClassify, List.getD_cons_zero, List.getD_cons_succ]
    split_ifs <;> rfl
  refine ⟨main, fun h4 h8 h12 h16 h20 => ?_⟩
  rw [main, decide_eq_true h4, decide_eq_false h8, decide_eq_false h12,
    decide_eq_false h16, decide_eq_true h20]
  rfl

/-- Witness for C2 at the all-zero 21-point sample (all comparisons false,
so no finger is extended and the result is `fist`). -/
theorem C2_classifier_witness :
    detectGesture (List.replicate 21 (⟨0, 0⟩ : Landmark)) =
      Option.some Gesture.fist := by
  rw [(C2_classifier (List.replicate 21 (⟨0, 0⟩ : Landmark)) (by simp)).1]
  decide

theorem option_bind_eq_none {α β : Type} (o : Option α) (f : α → Option β)
    (hf : ∀ a : α, f a = Option.none) : o.bind f = Option.none := by
  cases o with
  | none => rfl
  | some a => exact hf a

/-- C4 (code side): `detectGesture` has no defensive length check; on a
sample shorter than 21 points the access `landmarks[20]` yields `undefined`
and reading `.y` from it faults. -/
theorem detectGesture_short (lm : List Landmark) (h : lm.length < 21) :
    detectGesture lm = Option.none := by
  have h20 : lm[20]? = (Option.none : Option Landmark) :=
    List.getElem?_eq_none (by omega)
  simp only [detectGesture, bind]
  refine option_bind_eq_none _ _ fun l3 => ?_
  refine option_bind_eq_none _ _ fun l4 => ?_
  refine option_bind_eq_none _ _ fun l6 => ?_
  refine option_bind_eq_none _ _ fun l8 => ?_
  refine option_bind_eq_none _ _ fun l10 => ?_
  refine option_bind_eq_none _ _ fun l12 => ?_
  refine option_bind_eq_none _ _ fun l14 => ?_
  refine option_bind_eq_none _ _ fun l16 => ?_
  refine option_bind_eq_none _ _ fun l18 => ?_
  rw [h20]
  rfl

/-- Witness for `detectGesture_short`: a 20-point sample faults. -/
theorem detectGesture_short_witness :
    detectGesture (List.replicate 20 (⟨0, 0⟩ : Landmark)) = Option.none :=
  detectGesture_short (List.replicate 20 (⟨0, 0⟩ : Landmark)) (by simp)

/-- C3 (counterexample): on a frame with no hand detected, `onHandResults`
does not write `gestureState` at all, so `detected` keeps its previous value
(`point` here) instead of being set to `none` as the claim states. -/
theorem C3_counterexample :
    onHandResults Option.none
        { expansion := 1, rotationAccumulator := 0, colorShift := 0,
          detected := Gesture.point } =
      Option.some
        { expansion := 1, rotationAccumulator := 0, colorShift := 0,
          detected := Gesture.point } ∧
      Gesture.point ≠ Gesture.none :=
  ⟨rfl, by decide⟩

/-- C3 (amended): on a frame where a hand is detected and classified to `g`,
the reducer sets `detectedGesture` to `g` unconditionally; on a frame with no
hand detected it leaves the whole Visual State (hence `detectedGesture`)
unchanged. -/
theorem C3_detected_amended (lm : List Landmark) (s : GestureState)
    (g : Gesture) (h : detectGesture lm = Option.some g) :
    onHandResults (Option.some lm) s = Option.some (applyGesture s g) ∧
      (applyGesture s g).detected = g ∧
      onHandResults Option.none s = Option.some s := by
  refine ⟨?_, ?_, rfl⟩
  · simp [onHandResults, h]
  · cases g <;> rfl

/-- Witness for `C3_detected_amended` at the all-zero 21-point sample. -/
theorem C3_detected_amended_witness :
    onHandResults (Option.some (List.replicate 21 (⟨0, 0⟩ : Landmark)))
        initState = Option.some (applyGesture initState Gesture.fist) ∧
      (applyGesture initState Gesture.fist).detected = Gesture.fist ∧
      onHandResults Option.none initState = Option.some initState :=
  C3_detected_amended (List.replicate 21 (⟨0, 0⟩ : Landmark)) initState
    Gesture.fist (by decide)

/-! ## Particle layout templates

The `templates` object (src/app.js lines 42-150).  Each template maps a
particle index `i` and the particle count `total` to a 3D position.  The
saturn and fireworks templates call `Math.random()`; each per-particle call
receives a stream `rand : ℕ → ℝ` of random draws, consumed in call order
(`rand 0` is the first `Math.random()` of that call).  An expression whose
JavaScript evaluation would produce NaN or Infinity (an `acos` argument
outside [-1, 1], a division by zero) is guarded and yields `Option.none`. -/

noncomputable section

namespace templates

/-- `templates.sphere` (lines 43-52): Fibonacci sphere of radius 5. -/
def sphere (i total : ℕ) : Option (ℝ × ℝ × ℝ) :=
  let phiArg : ℝ := -1 + (2 * (i : ℝ)) / (total : ℝ)
  if (total : ℝ) = 0 ∨ phiArg < -1 ∨ 1 < phiArg then Option.none else
  let phi := Real.arccos phiArg
  let theta := Real.sqrt ((total : ℝ) * Real.pi) * phi
  let radius : ℝ := 5
  Option.some
    (radius * Real.cos theta * Real.sin phi,
     radius * Real.sin theta * Real.sin phi,
     radius * Real.cos phi)

/-- `templates.heart` (lines 54-61): parametric heart curve with
deterministic z-jitter from `(i mod 100)/100`. -/
def heart (i total : ℕ) : Option (ℝ × ℝ × ℝ) :=
  if (total : ℝ) = 0 then Option.none else
  let t := ((i : ℝ) / (total : ℝ)) * Real.pi * 2
  let u : ℝ := ((i % 100 : ℕ) : ℝ) / 100
  let x := 5 * (16 * Real.sin t ^ 3)
  let y := 5 * (13 * Real.cos t - 5 * Real.cos (2 * t) - 2 * Real.cos (3 * t)
    - Real.cos (4 * t))
  let z := (u - 0.5) * 3
  Option.some (x * 0.3, y * 0.3, z)

/-- `templates.flower` (lines 63-73): radius-modulated ring on 5 layers. -/
def flower (i total : ℕ) : Option (ℝ × ℝ × ℝ) :=
  if (total : ℝ) = 0 ∨ (total : ℝ) / 5 = 0 then Option.none else
  let angle := ((i : ℝ) / (total : ℝ)) * Real.pi * 2
  let layer : ℝ := (⌊(i : ℝ) / ((total : ℝ) / 5)⌋ : ℝ)
  let radius := 3 + Real.sin (angle * 5) * 2
  let height := (layer - 2.5) * 1.5
  Option.some (radius * Real.cos angle, height, radius * Real.sin angle)

/-- `templates.saturn` (lines 75-95): randomized flat ring for the first
60% of indices, Fibonacci sphere of radius 3 for the rest. -/
def saturn (rand : ℕ → ℝ) (i total : ℕ) : Option (ℝ × ℝ × ℝ) :=
  let ringParticles : ℝ := (total : ℝ) * 0.6
  if (i : ℝ) < ringParticles then
    if ringParticles = 0 then Option.none else
    let angle := ((i : ℝ) / ringParticles) * Real.pi * 2
    let radius := 5 + rand 0 * 2
    Option.some
      (radius * Real.cos angle, (rand 1 - 0.5) * 0.5, radius * Real.sin angle)
  else
    if (total : ℝ) - ringParticles = 0 then Option.none else
    let phiArg :=
      -1 + (2 * ((i : ℝ) - ringParticles)) / ((total : ℝ) - ringParticles)
    if phiArg < -1 ∨ 1 < phiArg then Option.none else
    let phi := Real.arccos phiArg
    let theta := Real.sqrt (((total : ℝ) - ringParticles) * Real.pi) * phi
    let radius : ℝ := 3
    Option.some
      (radius * Real.cos theta * Real.sin phi,
       radius * Real.sin theta * Real.sin phi,
       radius * Real.cos phi)

/-- `templates.fireworks` (lines 97-120): 8 bursts around a circle of
radius 3, each burst center randomized in height, particles on a small
Fibonacci sphere around the center. -/
def fireworks (rand : ℕ → ℝ) (i total : ℕ) : Option (ℝ × ℝ × ℝ) :=
  let burstCount : ℝ := 8
  let particlesPerBurst := (total : ℝ) / burstCount
  if particlesPerBurst = 0 then Option.none else
  let burstIndex : ℝ := (⌊(i : ℝ) / particlesPerBurst⌋ : ℝ)
  let particleInBurst := jsMod (i : ℝ) particlesPerBurst
  let burstAngle := (burstIndex / burstCount) * Real.pi * 2
  let burstRadius : ℝ := 3
  let bcx := burstRadius * Real.cos burstAngle
  let bcy := (rand 0 - 0.5) * 4
  let bcz := burstRadius * Real.sin burstAngle
  let phiArg := -1 + (2 * particleInBurst) / particlesPerBurst
  if phiArg < -1 ∨ 1 < phiArg then Option.none else
  let phi := Real.arccos phiArg
  let theta := Real.sqrt (particlesPerBurst * Real.pi) * phi
  let explosionRadius : ℝ := 1.5
  Option.some
    (bcx + explosionRadius * Real.cos theta * Real.sin phi,
     bcy + explosionRadius * Real.sin theta * Real.sin phi,
     bcz + explosionRadius * Real.cos phi)

/-- `templates.spiral` (lines 122-131): angle `t = (i/total)·8π`, radius
`0.5·t`, height linear over [-5, 5]. -/
def spiral (i total : ℕ) : Option (ℝ × ℝ × ℝ) :=
  if (total : ℝ) = 0 then Option.none else
  let t := ((i : ℝ) / (total : ℝ)) * Real.pi * 8
  let radius := t * 0.5
  let height := ((i : ℝ) / (total : ℝ) - 0.5) * 10
  Option.some (radius * Real.cos t, height, radius * Real.sin t)

/-- `templates.cube` (lines 133-140): side `Math.cbrt(total)` (the real cube
root, embedded as `total ^ (1/3)`), index decomposed by JavaScript `%` and
`Math.floor` division, spacing `10 / side`. -/
def cube (i total : ℕ) : Option (ℝ × ℝ × ℝ) :=
  let side := (total : ℝ) ^ ((1 : ℝ) / 3)
  if side = 0 ∨ side * side = 0 then Option.none else
  let x := jsMod (i : ℝ) side - side / 2
  let y := jsMod (⌊(i : ℝ) / side⌋ : ℝ) side - side / 2
  let z := (⌊(i : ℝ) / (side * side)⌋ : ℝ) - side / 2
  let spacing := 10 / side
  Option.some (x * spacing, y * spacing, z * spacing)

/-- `templates.wave` (lines 142-149): square grid of side `Math.sqrt(total)`,
height `sin(0.5x)·cos(0.5z)·2`. -/
def wave (i total : ℕ) : Option (ℝ × ℝ × ℝ) :=
  let gridSize := Real.sqrt (total : ℝ)
  if gridSize = 0 then Option.none else
  let x := jsMod (i : ℝ) gridSize - gridSize / 2
  let z := (⌊(i : ℝ) / gridSize⌋ : ℝ) - gridSize / 2
  let spacing := 10 / gridSize
  let y := Real.sin (x * 0.5) * Real.cos (z * 0.5) * 2
  Option.some (x * spacing, y, z * spacing)

end templates

end

/-- The eight template identifiers (the keys of the `templates` object). -/
inductive Template : Type
  | sphere
  | heart
  | flower
  | saturn
  | fireworks
  | spiral
  | cube
  | wave
deriving DecidableEq, Repr

/-- Dispatch `templates[currentTemplate]` (src/app.js line 165).  Only the
saturn and fireworks templates receive the random stream. -/
noncomputable def templateFunc (t : Template) (rand : ℕ → ℝ) (i total : ℕ) :
    Option (ℝ × ℝ × ℝ) :=
  match t with
  | Template.sphere => templates.sphere i total
  | Template.heart => templates.heart i total
  | Template.flower => templates.flower i total
  | Template.saturn => templates.saturn rand i total
  | Template.fireworks => templates.fireworks rand i total
  | Template.spiral => templates.spiral i total
  | Template.cube => templates.cube i total
  | Template.wave => templates.wave i total

/-- The position-filling loop of `createParticles` (src/app.js lines
167-171): one call of the selected template per index `0 ≤ i < count`.
`randSrc i` is the random stream consumed by the call for index `i`. -/
noncomputable def generate (t : Template) (count : ℕ)
    (randSrc : ℕ → ℕ → ℝ) : List (Option (ℝ × ℝ × ℝ)) :=
  (List.range count).map fun i => templateFunc t (randSrc i) i count

/-! ## C5: every template is defined (no NaN source fires) for `count ≥ 1` -/

theorem sphere_isSome (i total : ℕ) (hi : i < total) :
    (templates.sphere i total).isSome := by
  have ht : (0 : ℝ) < total := by
    exact_mod_cast Nat.zero_lt_of_lt hi
  have hi' : (i : ℝ) < total := by exact_mod_cast hi
  simp only [templates.sphere]
  rw [if_neg]
  · rfl
  push_neg
  refine ⟨ne_of_gt ht, ?_, ?_⟩
  · have : (0 : ℝ) ≤ 2 * (i : ℝ) / total := by positivity
    linarith
  · have : 2 * (i : ℝ) / total ≤ 2 := by
      rw [div_le_iff₀ ht]
      linarith
    linarith

theorem heart_isSome (i total : ℕ) (hi : i < total) :
    (templates.heart i total).isSome := by
  have ht : (0 : ℝ) < total := by
    exact_mod_cast Nat.zero_lt_of_lt hi
  simp only [templates.heart]
  rw [if_neg (ne_of_gt ht)]
  rfl

theorem flower_isSome (i total : ℕ) (hi : i < total) :
    (templates.flower i total).isSome := by
  have ht : (0 : ℝ) < total := by
    exact_mod_cast Nat.zero_lt_of_lt hi
  simp only [templates.flower]
  rw [if_neg]
  · rfl
  push_neg
  exact ⟨ne_of_gt ht, ne_of_gt (by positivity)⟩

theorem saturn_isSome (rand : ℕ → ℝ) (i total : ℕ) (hi : i < total) :
    (templates.saturn rand i total).isSome := by
  have ht : (0 : ℝ) < total := by
    exact_mod_cast Nat.zero_lt_of_lt hi
  have hi' : (i : ℝ) < total := by exact_mod_cast hi
  have hi0 : (0 : ℝ) ≤ i := by positivity
  simp only [templates.saturn]
  by_cases hring : (i : ℝ) < (total : ℝ) * 0.6
  · rw [if_pos hring, if_neg (by nlinarith)]
    rfl
  · rw [if_neg hring, if_neg (by nlinarith), if_neg]
    · rfl
    push_neg
    have hd : (0 : ℝ) < (total : ℝ) - (total : ℝ) * 0.6 := by nlinarith
    push_neg at hring
    constructor
    · have : (0 : ℝ) ≤ 2 * ((i : ℝ) - (total : ℝ) * 0.6) / ((total : ℝ) - (total : ℝ) * 0.6) := by
        apply div_nonneg _ hd.le
        nlinarith
      linarith
    · have : 2 * ((i : ℝ) - (total : ℝ) * 0.6) / ((total : ℝ) - (total : ℝ) * 0.6) ≤ 2 := by
        rw [div_le_iff₀ hd]
        nlinarith
      linarith

theorem fireworks_isSome (rand : ℕ → ℝ) (i total : ℕ) (hi : i < total) :
    (templates.fireworks rand i total).isSome := by
  have ht : (0 : ℝ) < total := by
    exact_mod_cast Nat.zero_lt_of_lt hi
  have hppb : (0 : ℝ) < (total : ℝ) / 8 := by positivity
  have hpib := jsMod_nonneg_lt (i : ℝ) ((total : ℝ) / 8) (by positivity) hppb
  simp only [templates.fireworks]
  rw [if_neg (ne_of_gt hppb), if_neg]
  · rfl
  push_neg
  constructor
  · have : (0 : ℝ) ≤ 2 * jsMod (i : ℝ) ((total : ℝ) / 8) / ((total : ℝ) / 8) := by
      apply div_nonneg _ hppb.le
      linarith [hpib.1]
    linarith
  · have : 2 * jsMod (i : ℝ) ((total : ℝ) / 8) / ((total : ℝ) / 8) ≤ 2 := by
      rw [div_le_iff₀ hppb]
      linarith [hpib.2]
    linarith

theorem spiral_isSome (i total : ℕ) (hi : i < total) :
    (templates.spiral i total).isSome := by
  have ht : (0 : ℝ) < total := by
    exact_mod_cast Nat.zero_lt_of_lt hi
  simp only [templates.spiral]
  rw [if_neg (ne_of_gt ht)]
  rfl

theorem cube_isSome (i total : ℕ) (hi : i < total) :
    (templates.cube i total).isSome := by
  have ht : (0 : ℝ) < total := by
    exact_mod_cast Nat.zero_lt_of_lt hi
  have hside : (0 : ℝ) < (total : ℝ) ^ ((1 : ℝ) / 3) :=
    Real.rpow_pos_of_pos ht _
  simp only [templates.cube]
  rw [if_neg]
  · rfl
  push_neg
  exact ⟨ne_of_gt hside, mul_ne_zero (ne_of_gt hside) (ne_of_gt hside)⟩

theorem wave_isSome (i total : ℕ) (hi : i < total) :
    (templates.wave i total).isSome := by
  have ht : (0 : ℝ) < total := by
    exact_mod_cast Nat.zero_lt_of_lt hi
  have hgrid : (0 : ℝ) < Real.sqrt total := Real.sqrt_pos.mpr ht
  simp only [templates.wave]
  rw [if_neg (ne_of_gt hgrid)]
  rfl

theorem templateFunc_isSome (t : Template) (rand : ℕ → ℝ) (i total : ℕ)
    (hi : i < total) : (templateFunc t rand i total).isSome := by
  cases t with
  | sphere => exact sphere_isSome i total hi
  | heart => exact heart_isSome i total hi
  | flower => exact flower_isSome i total hi
  | saturn => exact saturn_isSome rand i total hi
  | fireworks => exact fireworks_isSome rand i total hi
  | spiral => exact spiral_isSome i total hi
  | cube => exact cube_isSome i total hi
  | wave => exact wave_isSome i total hi

/-- C5: for every template id and every `count ≥ 1`, the generation loop
produces exactly `count` positions and every position is defined: no `acos`
argument leaves [-1, 1] and no division by zero occurs at any index, so no
coordinate is NaN or Infinity. -/
theorem C5_generate_total (t : Template) (count : ℕ) (randSrc : ℕ → ℕ → ℝ)
    (h : 1 ≤ count) :
    (generate t count randSrc).length = count ∧
      ∀ p ∈ generate t count randSrc, p.isSome := by
  constructor
  · simp [generate]
  · intro p hp
    simp only [generate, List.mem_map, List.mem_range] at hp
    obtain ⟨i, hi, rfl⟩ := hp
    exact templateFunc_isSome t (randSrc i) i count hi

/-- Witness for C5 at the saturn template with `count = 3` (both the ring
branch and the inner-sphere branch are exercised). -/
theorem C5_generate_total_witness :
    (generate Template.saturn 3 (fun _ _ => (0 : ℝ))).length = 3 ∧
      ∀ p ∈ generate Template.saturn 3 (fun _ _ => (0 : ℝ)), p.isSome :=
  C5_generate_total Template.saturn 3 (fun _ _ => (0 : ℝ)) (by norm_num)

/-! ## C6: the flower layer heights -/

/-- C6 (counterexample): at `count = 5`, particle `i = 4` is in the top
layer (`layer = 4`), yet its height is `(4 - 2.5) * 1.5 = 2.25`, not the
`+3.75` the claimed span [-3.75, +3.75] would require. -/
theorem C6_counterexample :
    (templates.flower 4 5).map (fun p => p.2.1) = Option.some 2.25 ∧
      ⌊((4 : ℕ) : ℝ) / (((5 : ℕ) : ℝ) / 5)⌋ = 4 ∧ (2.25 : ℝ) ≠ 3.75 := by
  refine ⟨?_, by norm_num, by norm_num⟩
  simp only [templates.flower]
  norm_num

/-- C6 (amended): every flower particle sits on a ring of radius
`3 + 2·sin(5·angle)` at one of 5 layer heights `(layer - 2.5)·1.5` with
`layer = floor(i / (count/5)) ∈ {0,...,4}`; the heights are evenly spaced
(step 1.5) spanning from -3.75 to +2.25, not to +3.75. -/
theorem C6_flower_amended (count i : ℕ) (hi : i < count) :
    0 ≤ ⌊(i : ℝ) / ((count : ℝ) / 5)⌋ ∧
      ⌊(i : ℝ) / ((count : ℝ) / 5)⌋ ≤ 4 ∧
      templates.flower i count = Option.some
        ((3 + Real.sin (((i : ℝ) / count) * Real.pi * 2 * 5) * 2) *
            Real.cos (((i : ℝ) / count) * Real.pi * 2),
         ((⌊(i : ℝ) / ((count : ℝ) / 5)⌋ : ℝ) - 2.5) * 1.5,
         (3 + Real.sin (((i : ℝ) / count) * Real.pi * 2 * 5) * 2) *
            Real.sin (((i : ℝ) / count) * Real.pi * 2)) ∧
      ((⌊(i : ℝ) / ((count : ℝ) / 5)⌋ : ℝ) - 2.5) * 1.5 ∈
        ({-3.75, -2.25, -0.75, 0.75, 2.25} : Set ℝ) := by
  have ht : (0 : ℝ) < count := by
    exact_mod_cast Nat.zero_lt_of_lt hi
  have hi' : (i : ℝ) < count := by exact_mod_cast hi
  have hx : (i : ℝ) / ((count : ℝ) / 5) = 5 * i / count := by
    field_simp
    ring
  have h0 : 0 ≤ ⌊(i : ℝ) / ((count : ℝ) / 5)⌋ := by
    apply Int.floor_nonneg.mpr
    rw [hx]
    positivity
  have h4 : ⌊(i : ℝ) / ((count : ℝ) / 5)⌋ ≤ 4 := by
    have : ⌊(i : ℝ) / ((count : ℝ) / 5)⌋ < 5 := by
      apply Int.floor_lt.mpr
      rw [hx]
      push_cast
      rw [div_lt_iff₀ ht]
      linarith
    omega
  refine ⟨h0, h4, ?_, ?_⟩
  · simp only [templates.flower]
    rw [if_neg]
    push_neg
    exact ⟨ne_of_gt ht, ne_of_gt (by positivity)⟩
  · set L := ⌊(i : ℝ) / ((count : ℝ) / 5)⌋ with hL
    interval_cases L <;>
      simp [Set.mem_insert_iff] <;> norm_num

/-! ## C7: the cube voxel grid -/

theorem floor_nat_div (i s : ℕ) :
    ⌊(i : ℝ) / (s : ℝ)⌋ = ((i / s : ℕ) : ℤ) := by
  rw [← Int.natCast_floor_eq_floor (by positivity), Nat.floor_div_eq_div]

theorem jsMod_nat_cast (i s : ℕ) :
    jsMod (i : ℝ) (s : ℝ) = ((i % s : ℕ) : ℝ) := by
  rcases Nat.eq_zero_or_pos s with hs | hs
  · subst hs
    simp [jsMod, jsTrunc]
  · have h0 : (0 : ℝ) ≤ (i : ℝ) / (s : ℝ) := by positivity
    rw [jsMod, jsTrunc_of_nonneg _ h0, floor_nat_div, Int.cast_natCast]
    have h := Nat.mod_add_div i s
    have h' : ((i % s + s * (i / s) : ℕ) : ℝ) = (i : ℝ) := by
      rw [h]
    push_cast at h'
    linarith

theorem cbrt_pow_three (s : ℕ) :
    ((s ^ 3 : ℕ) : ℝ) ^ ((1 : ℝ) / 3) = (s : ℝ) := by
  have h0 : (0 : ℝ) ≤ (s : ℝ) := by positivity
  push_cast
  rw [← Real.rpow_natCast (s : ℝ) 3, ← Real.rpow_mul h0]
  norm_num

/-- C7 (counterexample): at `count = 2` the code's grid side is
`2^(1/3) ≈ 1.26`, not the integer `⌈∛2⌉ = 2` the claim states: under the
claimed integer grid of side 2, particle `i = 1` would sit at
`x = ((1 mod 2) - 2/2)·(10/2) = 0`, but the code places it elsewhere. -/
theorem C7_counterexample :
    ⌈((2 : ℕ) : ℝ) ^ ((1 : ℝ) / 3)⌉ = 2 ∧
      ((((1 % 2 : ℕ) : ℝ) - (2 : ℝ) / 2) * (10 / (2 : ℝ)) = 0) ∧
      (templates.cube 1 2).map (fun p => p.1) ≠ Option.some 0 := by
  have hc1 : (1 : ℝ) < ((2 : ℕ) : ℝ) ^ ((1 : ℝ) / 3) := by
    rw [Real.one_lt_rpow_iff_of_pos (by norm_num)]
    left
    norm_num
  have hc2 : ((2 : ℕ) : ℝ) ^ ((1 : ℝ) / 3) < 2 := by
    have h := Real.rpow_lt_rpow_of_exponent_lt
      (x := ((2 : ℕ) : ℝ)) (by norm_num) (show (1 : ℝ) / 3 < 1 by norm_num)
    rw [Real.rpow_one] at h
    exact_mod_cast h
  refine ⟨?_, by norm_num, ?_⟩
  · rw [Int.ceil_eq_iff]
    constructor
    · push_cast
      linarith
    · push_cast
      linarith
  · have hpos : (0 : ℝ) < ((2 : ℕ) : ℝ) ^ ((1 : ℝ) / 3) := by linarith
    simp only [templates.cube]
    rw [if_neg (by push_neg; exact ⟨ne_of_gt hpos, mul_ne_zero (ne_of_gt hpos) (ne_of_gt hpos)⟩)]
    have hmod : jsMod ((1 : ℕ) : ℝ) (((2 : ℕ) : ℝ) ^ ((1 : ℝ) / 3)) = 1 := by
      have hq : (0 : ℝ) ≤ ((1 : ℕ) : ℝ) / (((2 : ℕ) : ℝ) ^ ((1 : ℝ) / 3)) := by
        positivity
      have hlt : ((1 : ℕ) : ℝ) / (((2 : ℕ) : ℝ) ^ ((1 : ℝ) / 3)) < 1 := by
        rw [div_lt_one hpos]
        push_cast
        linarith
      rw [jsMod, jsTrunc_of_nonneg _ hq, Int.floor_eq_zero_iff.mpr ⟨hq, hlt⟩]
      push_cast
      ring
    rw [hmod]
    intro habs
    rw [Option.map_some', Option.some.injEq] at habs
    rcases mul_eq_zero.mp habs with h | h
    · have : ((2 : ℕ) : ℝ) ^ ((1 : ℝ) / 3) = 2 := by
        push_cast at h ⊢
        linarith
      linarith
    · rcases div_eq_zero_iff.mp h with h10 | hc0
      · norm_num at h10
      · exact absurd hc0 (ne_of_gt hpos)

/-- C7 (amended): the grid side used by the cube template is the real cube
root `∛count` (not rounded to an integer).  When `count = s³` is a perfect
cube the side equals the integer `s` and each index decomposes by integer
modulo and division into grid coordinates in `{0,...,s-1}`, centered by
`s/2` and spaced `10/s`, so the grid spans `10·(s-1)/s ≈ 10` units. -/
theorem C7_cube_amended (s i : ℕ) (hs : 1 ≤ s) (hi : i < s ^ 3) :
    templates.cube i (s ^ 3) = Option.some
      ((((i % s : ℕ) : ℝ) - (s : ℝ) / 2) * (10 / (s : ℝ)),
       (((i / s % s : ℕ) : ℝ) - (s : ℝ) / 2) * (10 / (s : ℝ)),
       (((i / (s * s) : ℕ) : ℝ) - (s : ℝ) / 2) * (10 / (s : ℝ))) ∧
      i % s < s ∧ i / s % s < s ∧ i / (s * s) < s := by
  have hs0 : 0 < s := hs
  have hsr : (0 : ℝ) < s := by exact_mod_cast hs0
  have hside : ((s ^ 3 : ℕ) : ℝ) ^ ((1 : ℝ) / 3) = (s : ℝ) :=
    cbrt_pow_three s
  constructor
  · simp only [templates.cube, hside]
    rw [if_neg (by push_neg; exact ⟨ne_of_gt hsr, mul_ne_zero (ne_of_gt hsr) (ne_of_gt hsr)⟩)]
    have hx : jsMod (i : ℝ) (s : ℝ) = ((i % s : ℕ) : ℝ) := jsMod_nat_cast i s
    have hfloor : (⌊(i : ℝ) / (s : ℝ)⌋ : ℝ) = ((i / s : ℕ) : ℝ) := by
      rw [floor_nat_div, Int.cast_natCast]
    have hy : jsMod ((⌊(i : ℝ) / (s : ℝ)⌋ : ℝ)) (s : ℝ) =
        ((i / s % s : ℕ) : ℝ) := by
      rw [hfloor, jsMod_nat_cast]
    have hss : (s : ℝ) * (s : ℝ) = ((s * s : ℕ) : ℝ) := by push_cast; ring
    have hz : (⌊(i : ℝ) / ((s : ℝ) * (s : ℝ))⌋ : ℝ) =
        ((i / (s * s) : ℕ) : ℝ) := by
      rw [hss, floor_nat_div, Int.cast_natCast]
    rw [hx, hy, hz]
  · refine ⟨Nat.mod_lt _ hs0, Nat.mod_lt _ hs0, ?_⟩
    apply Nat.div_lt_of_lt_mul
    calc i < s ^ 3 := hi
    _ = s * s * s := by ring
  
/-- Witness for `C7_cube_amended` at `s = 2`, `i = 5`. -/
theorem C7_cube_amended_witness :
    templates.cube 5 (2 ^ 3) = Option.some
      ((((5 % 2 : ℕ) : ℝ) - (2 : ℝ) / 2) * (10 / (2 : ℝ)),
       (((5 / 2 % 2 : ℕ) : ℝ) - (2 : ℝ) / 2) * (10 / (2 : ℝ)),
       (((5 / (2 * 2) : ℕ) : ℝ) - (2 : ℝ) / 2) * (10 / (2 : ℝ))) ∧
      5 % 2 < 2 ∧ 5 / 2 % 2 < 2 ∧ 5 / (2 * 2) < 2 :=
  C7_cube_amended 2 5 (by norm_num) (by norm_num)

/-! ## C8: which templates consult the random source -/

/-- C8: every template except saturn and fireworks ignores the random
stream entirely — two calls with identical `(template, i, count)` give
identical output — while saturn and fireworks do read it (their output
differs for different random draws). -/
theorem C8_randomness :
    (∀ t : Template, t ≠ Template.saturn → t ≠ Template.fireworks →
      ∀ (i total : ℕ) (r r' : ℕ → ℝ),
        templateFunc t r i total = templateFunc t r' i total) ∧
      (∃ (r r' : ℕ → ℝ) (i total : ℕ),
        templates.saturn r i total ≠ templates.saturn r' i total) ∧
      (∃ (r r' : ℕ → ℝ) (i total : ℕ),
        templates.fireworks r i total ≠ templates.fireworks r' i total) := by
  refine ⟨?_, ?_, ?_⟩
  · intro t h1 h2 i total r r'
    cases t with
    | sphere => rfl
    | heart => rfl
    | flower => rfl
    | saturn => exact absurd rfl h1
    | fireworks => exact absurd rfl h2
    | spiral => rfl
    | cube => rfl
    | wave => rfl
  · refine ⟨fun _ => 0, fun _ => 1 / 2, 0, 1, ?_⟩
    intro heq
    norm_num [templates.saturn, Real.cos_zero] at heq
  · refine ⟨fun _ => 0, fun _ => 1 / 2, 0, 8, ?_⟩
    intro heq
    have hm : jsMod (0 : ℝ) 1 = 0 := by
      norm_num [jsMod, jsTrunc]
    norm_num [templates.fireworks, hm, Real.arccos_neg_one, Real.sin_pi]
      at heq

/-- Witness for `C8_randomness`: the wave template gives the same output
under two different random streams. -/
theorem C8_randomness_witness :
    templateFunc Template.wave (fun _ => 0) 2 5 =
      templateFunc Template.wave (fun _ => 1) 2 5 :=
  C8_randomness.1 Template.wave (by decide) (by decide) 2 5
    (fun _ => 0) (fun _ => 1)

/-! ## The per-frame particle update (`updateParticles`, src/app.js 200-227)

The three parallel buffers of `particleGeometry` are modelled as flat lists,
exactly as the `Float32Array`s are indexed in the source: particle `i` owns
`positions[i*3 .. i*3+2]`, `colors[i*3 .. i*3+2]`, `sizes[i]`.  `List.set`
models a typed-array store (out-of-range stores are dropped, the length
never changes).  `THREE.Color().setHSL` belongs to the external renderer
library, so the HSL-to-RGB conversion is an abstract parameter `hsl`. -/

structure ParticleField : Type where
  positions : List ℝ
  colors : List ℝ
  sizes : List ℝ

/-- One iteration of the `updateParticles` loop (src/app.js lines 209-223)
for particle `i`: store the HSL color at `colors[i*3 .. i*3+2]` and add the
vertical oscillation to `positions[i*3+1]`. -/
noncomputable def updateStep (hsl : ℝ → ℝ → ℝ → ℝ × ℝ × ℝ)
    (colorShift : ℝ) (time : ℝ) (particleCount : ℕ) (f : ParticleField)
    (i : ℕ) : ParticleField :=
  let c := hsl (jsMod (colorShift + ((i : ℝ) / (particleCount : ℝ)) * 0.1) 1)
    0.8 0.5
  { f with
    colors := ((f.colors.set (i * 3) c.1).set (i * 3 + 1) c.2.1).set
      (i * 3 + 2) c.2.2,
    positions := f.positions.set (i * 3 + 1)
      (f.positions.getD (i * 3 + 1) 0 +
        Real.sin (time + (i : ℝ) * 0.1) * 0.002) }

/-- The buffer-mutating part of `updateParticles` (src/app.js lines
206-226): the loop `for i in 0 .. particleCount-1`.  `time` is the constant
`Date.now() * 0.001` (elapsed seconds) of the frame. -/
noncomputable def updateParticles (hsl : ℝ → ℝ → ℝ → ℝ × ℝ × ℝ)
    (colorShift : ℝ) (time : ℝ) (particleCount : ℕ) (f : ParticleField) :
    ParticleField :=
  (List.range particleCount).foldl
    (updateStep hsl colorShift time particleCount) f

/-- Characterization of the update loop after `k` iterations: sizes are
untouched, lengths are preserved, slots at index `≥ k*3` (and position slots
off the y-lane) are untouched, and each processed particle's slots hold the
stated values. -/
theorem updateLoop_spec (hsl : ℝ → ℝ → ℝ → ℝ × ℝ × ℝ) (cs time : ℝ)
    (n : ℕ) (f : ParticleField) (k : ℕ) :
    ((List.range k).foldl (updateStep hsl cs time n) f).sizes = f.sizes ∧
    ((List.range k).foldl (updateStep hsl cs time n) f).colors.length =
      f.colors.length ∧
    ((List.range k).foldl (updateStep hsl cs time n) f).positions.length =
      f.positions.length ∧
    (∀ j, k * 3 ≤ j →
      ((List.range k).foldl (updateStep hsl cs time n) f).colors[j]? =
        f.colors[j]?) ∧
    (∀ j, k * 3 ≤ j ∨ j % 3 ≠ 1 →
      ((List.range k).foldl (updateStep hsl cs time n) f).positions[j]? =
        f.positions[j]?) ∧
    (∀ i, i < k → i * 3 + 2 < f.colors.length →
      ((List.range k).foldl (updateStep hsl cs time n) f).colors[i * 3]? =
        some (hsl (jsMod (cs + ((i : ℝ) / (n : ℝ)) * 0.1) 1) 0.8 0.5).1 ∧
      ((List.range k).foldl (updateStep hsl cs time n) f).colors[i * 3 + 1]? =
        some (hsl (jsMod (cs + ((i : ℝ) / (n : ℝ)) * 0.1) 1) 0.8 0.5).2.1 ∧
      ((List.range k).foldl (updateStep hsl cs time n) f).colors[i * 3 + 2]? =
        some (hsl (jsMod (cs + ((i : ℝ) / (n : ℝ)) * 0.1) 1) 0.8 0.5).2.2) ∧
    (∀ i, i < k → i * 3 + 1 < f.positions.length →
      ((List.range k).foldl (updateStep hsl cs time n) f).positions[i * 3 + 1]? =
        some (f.positions.getD (i * 3 + 1) 0 +
          Real.sin (time + (i : ℝ) * 0.1) * 0.002)) := by
  induction k with
  | zero =>
      refine ⟨rfl, rfl, rfl, fun j _ => rfl, fun j _ => rfl,
        fun i hi => absurd hi (by omega), fun i hi => absurd hi (by omega)⟩
  | succ k ih =>
      obtain ⟨ihs, ihcl, ihpl, ihcu, ihpu, ihc, ihp⟩ := ih
      rw [List.range_succ, List.foldl_append]
      set r := (List.range k).foldl (updateStep hsl cs time n) f with hr
      simp only [List.foldl_cons, List.foldl_nil]
      refine ⟨ihs, ?_, ?_, ?_, ?_, ?_, ?_⟩
      · simp only [updateStep, List.length_set]
        exact ihcl
      · simp only [updateStep, List.length_set]
        exact ihpl
      · intro j hj
        simp only [updateStep]
        rw [List.getElem?_set_ne (by omega), List.getElem?_set_ne (by omega),
          List.getElem?_set_ne (by omega)]
        exact ihcu j (by omega)
      · intro j hj
        simp only [updateStep]
        rw [List.getElem?_set_ne (by omega)]
        apply ihpu
        omega
      · intro i hi hlen
        by_cases hik : i < k
        · have := ihc i hik hlen
          simp only [updateStep]
          refine ⟨?_, ?_, ?_⟩ <;>
            (rw [List.getElem?_set_ne (by omega), List.getElem?_set_ne (by omega),
              List.getElem?_set_ne (by omega)])
          · exact this.1
          · exact this.2.1
          · exact this.2.2
        · have hik' : i = k := by omega
          subst hik'
          simp only [updateStep]
          have hlen' : i * 3 + 2 < r.colors.length := by
            rw [ihcl]; exact hlen
          refine ⟨?_, ?_, ?_⟩
          · rw [List.getElem?_set_ne (by omega), List.getElem?_set_ne (by omega)]
            exact List.getElem?_set_eq_of_lt _ (by omega)
          · rw [List.getElem?_set_ne (by omega)]
            exact List.getElem?_set_eq_of_lt _ (by simp [List.length_set]; omega)
          · exact List.getElem?_set_eq_of_lt _ (by simp [List.length_set]; omega)
      · intro i hi hlen
        by_cases hik : i < k
        · have := ihp i hik hlen
          simp only [updateStep]
          rw [List.getElem?_set_ne (by omega)]
          exact this
        · have hik' : i = k := by omega
          subst hik'
          simp only [updateStep]
          have hget : r.positions.getD (i * 3 + 1) 0 =
              f.positions.getD (i * 3 + 1) 0 := by
            rw [List.getD_eq_getElem?_getD, List.getD_eq_getElem?_getD,
              ihpu (i * 3 + 1) (Or.inl (by omega))]
          have hlen' : i * 3 + 1 < r.positions.length := by
            rw [ihpl]; exact hlen
          rw [hget]
          exact List.getElem?_set_eq_of_lt _ hlen'

/-- C9: on a frame over `n` particles (buffers of length `3n`), every color
triple is overwritten from HSL with hue `(colorShift + (i/n)·0.1) mod 1`,
saturation 0.8, lightness 0.5 — the right-hand sides mention neither the
base color nor the previous colors, so the overwrite is independent of both
— and `sin(time + i·0.1)·0.002` is added to the particle's current y
coordinate, with no buffer reallocated or resized. -/
theorem C9_applyVisualState (hsl : ℝ → ℝ → ℝ → ℝ × ℝ × ℝ) (cs time : ℝ)
    (n : ℕ) (f : ParticleField) (i : ℕ) (hi : i < n)
    (hc : f.colors.length = 3 * n) (hp : f.positions.length = 3 * n) :
    (updateParticles hsl cs time n f).colors[i * 3]? =
      some (hsl (jsMod (cs + ((i : ℝ) / (n : ℝ)) * 0.1) 1) 0.8 0.5).1 ∧
    (updateParticles hsl cs time n f).colors[i * 3 + 1]? =
      some (hsl (jsMod (cs + ((i : ℝ) / (n : ℝ)) * 0.1) 1) 0.8 0.5).2.1 ∧
    (updateParticles hsl cs time n f).colors[i * 3 + 2]? =
      some (hsl (jsMod (cs + ((i : ℝ) / (n : ℝ)) * 0.1) 1) 0.8 0.5).2.2 ∧
    (updateParticles hsl cs time n f).positions[i * 3 + 1]? =
      some (f.positions.getD (i * 3 + 1) 0 +
        Real.sin (time + (i : ℝ) * 0.1) * 0.002) ∧
    (updateParticles hsl cs time n f).colors.length = f.colors.length ∧
    (updateParticles hsl cs time n f).positions.length =
      f.positions.length := by
  obtain ⟨hs, hcl, hpl, hcu, hpu, hcolor, hpos⟩ :=
    updateLoop_spec hsl cs time n f n
  have h1 := hcolor i hi (by omega)
  exact ⟨h1.1, h1.2.1, h1.2.2, hpos i hi (by omega), hcl, hpl⟩

/-- Witness for C9: one particle, buffers of length 3. -/
theorem C9_applyVisualState_witness :
    (updateParticles (fun h s l => (h, s, l)) 0 0 1
        ⟨[0, 0, 0], [0, 0, 0], [1]⟩).colors[0 * 3]? =
      some ((fun h s l => ((h : ℝ), (s : ℝ), (l : ℝ)))
        (jsMod (0 + (((0 : ℕ) : ℝ) / ((1 : ℕ) : ℝ)) * 0.1) 1) 0.8 0.5).1 ∧
    (updateParticles (fun h s l => (h, s, l)) 0 0 1
        ⟨[0, 0, 0], [0, 0, 0], [1]⟩).colors[0 * 3 + 1]? =
      some ((fun h s l => ((h : ℝ), (s : ℝ), (l : ℝ)))
        (jsMod (0 + (((0 : ℕ) : ℝ) / ((1 : ℕ) : ℝ)) * 0.1) 1) 0.8 0.5).2.1 ∧
    (updateParticles (fun h s l => (h, s, l)) 0 0 1
        ⟨[0, 0, 0], [0, 0, 0], [1]⟩).colors[0 * 3 + 2]? =
      some ((fun h s l => ((h : ℝ), (s : ℝ), (l : ℝ)))
        (jsMod (0 + (((0 : ℕ) : ℝ) / ((1 : ℕ) : ℝ)) * 0.1) 1) 0.8 0.5).2.2 ∧
    (updateParticles (fun h s l => (h, s, l)) 0 0 1
        ⟨[0, 0, 0], [0, 0, 0], [1]⟩).positions[0 * 3 + 1]? =
      some ((⟨[0, 0, 0], [0, 0, 0], [1]⟩ : ParticleField).positions.getD
          (0 * 3 + 1) 0 +
        Real.sin (0 + ((0 : ℕ) : ℝ) * 0.1) * 0.002) ∧
    (updateParticles (fun h s l => (h, s, l)) 0 0 1
        ⟨[0, 0, 0], [0, 0, 0], [1]⟩).colors.length =
      ([0, 0, 0] : List ℝ).length ∧
    (updateParticles (fun h s l => (h, s, l)) 0 0 1
        ⟨[0, 0, 0], [0, 0, 0], [1]⟩).positions.length =
      ([0, 0, 0] : List ℝ).length :=
  C9_applyVisualState (fun h s l => (h, s, l)) 0 0 1
    ⟨[0, 0, 0], [0, 0, 0], [1]⟩ 0 (by norm_num) (by simp) (by simp)

/-- C10: a frame update leaves everything outside the color lanes and the
position y-lane untouched: sizes are identical, all three lengths are
unchanged, and every position slot `j` with `j mod 3 ≠ 1` (the x and z
coordinates) is unchanged. -/
theorem C10_frame_effect (hsl : ℝ → ℝ → ℝ → ℝ × ℝ × ℝ) (cs time : ℝ)
    (n : ℕ) (f : ParticleField) (j : ℕ) (hj : j % 3 ≠ 1) :
    (updateParticles hsl cs time n f).sizes = f.sizes ∧
    (updateParticles hsl cs time n f).positions.length =
      f.positions.length ∧
    (updateParticles hsl cs time n f).colors.length = f.colors.length ∧
    (updateParticles hsl cs time n f).sizes.length = f.sizes.length ∧
    (updateParticles hsl cs time n f).positions[j]? = f.positions[j]? := by
  obtain ⟨hs, hcl, hpl, hcu, hpu, hcolor, hpos⟩ :=
    updateLoop_spec hsl cs time n f n
  exact ⟨hs, hpl, hcl, congrArg List.length hs, hpu j (Or.inr hj)⟩

/-- Witness for C10 at the x slot of particle 0. -/
theorem C10_frame_effect_witness :
    (updateParticles (fun h s l => (h, s, l)) 0 0 1
        ⟨[0, 0, 0], [0, 0, 0], [1]⟩).sizes = [1] ∧
    (updateParticles (fun h s l => (h, s, l)) 0 0 1
        ⟨[0, 0, 0], [0, 0, 0], [1]⟩).positions.length =
      ([0, 0, 0] : List ℝ).length ∧
    (updateParticles (fun h s l => (h, s, l)) 0 0 1
        ⟨[0, 0, 0], [0, 0, 0], [1]⟩).colors.length =
      ([0, 0, 0] : List ℝ).length ∧
    (updateParticles (fun h s l => (h, s, l)) 0 0 1
        ⟨[0, 0, 0], [0, 0, 0], [1]⟩).sizes.length =
      ([1] : List ℝ).length ∧
    (updateParticles (fun h s l => (h, s, l)) 0 0 1
        ⟨[0, 0, 0], [0, 0, 0], [1]⟩).positions[0]? =
      ([0, 0, 0] : List ℝ)[0]? :=
  C10_frame_effect (fun h s l => (h, s, l)) 0 0 1
    ⟨[0, 0, 0], [0, 0, 0], [1]⟩ 0 (by norm_num)

/-- Witness for `C6_flower_amended` at `count = 5`, `i = 4` (top layer). -/
theorem C6_flower_amended_witness :
    0 ≤ ⌊((4 : ℕ) : ℝ) / (((5 : ℕ) : ℝ) / 5)⌋ ∧
      ⌊((4 : ℕ) : ℝ) / (((5 : ℕ) : ℝ) / 5)⌋ ≤ 4 ∧
      templates.flower 4 5 = Option.some
        ((3 + Real.sin ((((4 : ℕ) : ℝ) / ((5 : ℕ) : ℝ)) * Real.pi * 2 * 5) * 2) *
            Real.cos ((((4 : ℕ) : ℝ) / ((5 : ℕ) : ℝ)) * Real.pi * 2),
         ((⌊((4 : ℕ) : ℝ) / (((5 : ℕ) : ℝ) / 5)⌋ : ℝ) - 2.5) * 1.5,
         (3 + Real.sin ((((4 : ℕ) : ℝ) / ((5 : ℕ) : ℝ)) * Real.pi * 2 * 5) * 2) *
            Real.sin ((((4 : ℕ) : ℝ) / ((5 : ℕ) : ℝ)) * Real.pi * 2)) ∧
      ((⌊((4 : ℕ) : ℝ) / (((5 : ℕ) : ℝ) / 5)⌋ : ℝ) - 2.5) * 1.5 ∈
        ({-3.75, -2.25, -0.75, 0.75, 2.25} : Set ℝ) :=
  C6_flower_amended 5 4 (by norm_num)
